import Mathlib

/-!
Verification of the motion-triggered recording controller of
webcam-security-system (src/webcam_security/core.py).

The loop-local state of `SecurityMonitor.motion_detector` (the booleans
`recording` and `telegram_sent`, the optional timestamp `motion_timer`,
and the optional video writer `self.out`) is embedded as an explicit
state record, and each iteration of the frame loop as a pure step
function on that record.  External effects that the claims talk about
are made observable in the state: the set of currently-open video-sink
handles, the number of notification dispatches, and the list of frame
payloads written to each sink.  Time is modelled with integer
timestamps (seconds) and the hour of day as a natural number, the two
values the code reads from `time.time()` and `datetime.now().hour`.
-/

/-- Configuration fields of `Config` read by the functions under study
(`core.py` reads `monitoring_start_hour`, `monitoring_end_hour`,
`grace_period`, `cleanup_days`; the vision-related fields do not enter
the controller logic modelled here). -/
structure Config where
  monitoring_start_hour : Nat
  monitoring_end_hour : Nat
  grace_period : Int
  cleanup_days : Int
  deriving Repr, DecidableEq

/-- `SecurityMonitor.is_monitoring_hours` (core.py lines 28-37): pure
function of the current hour and the two configured bounds, with the
wraparound branch for `start_hour > end_hour`. -/
def is_monitoring_hours (start_hour end_hour current_hour : Nat) : Bool :=
  if start_hour > end_hour then
    decide (current_hour ≥ start_hour) || decide (current_hour < end_hour)
  else
    decide (start_hour ≤ current_hour) && decide (current_hour < end_hour)

/-- A `cv2.VideoWriter` handle: its identity, whether the underlying
sink actually opened (constructing a `cv2.VideoWriter` never raises on
open failure; the object merely reports `isOpened() == False` and
`write` becomes a no-op), and the payloads written so far. -/
structure VideoWriter where
  id : Nat
  isOpened : Bool
  frames : List Nat
  deriving Repr, DecidableEq

/-- `VideoWriter.write`: appends the frame payload when the sink is
open, and is a no-op on a writer that failed to open. -/
def VideoWriter.write (w : VideoWriter) (frame : Nat) : VideoWriter :=
  if w.isOpened then { w with frames := w.frames ++ [frame] } else w

/-- The inputs of one iteration of the frame loop: the boolean motion signal
computed from the contours, the hour `datetime.now().hour` used by
`is_monitoring_hours`, the timestamp `current_time = time.time()`, a
flag saying whether the video sink would open successfully on this
frame, and the frame payload itself. -/
structure Frame where
  motion : Bool
  hour : Nat
  time : Int
  sinkOk : Bool
  idx : Nat
  deriving Repr, DecidableEq

/-- The loop-local state of `motion_detector` together with the
observable effects: `openSinks` is the list of ids of video sinks
currently open on disk, `nextId` a supply of fresh sink ids, and
`notifCount` the number of `send_telegram_photo` dispatches so far
(the call swallows its own failures, so a dispatch is counted whether
or not delivery succeeds). -/
structure MonitorState where
  recording : Bool
  motion_timer : Option Int
  out : Option VideoWriter
  telegram_sent : Bool
  openSinks : List Nat
  nextId : Nat
  notifCount : Nat
  deriving Repr, DecidableEq

/-- State at entry to the frame loop (core.py lines 110-113):
`recording = False`, `motion_timer = None`, `telegram_sent = False`,
`self.out = None`; no sink open, no notification sent. -/
def initState : MonitorState :=
  { recording := false
    motion_timer := none
    out := none
    telegram_sent := false
    openSinks := []
    nextId := 0
    notifCount := 0 }

/-- The `Idle -> Recording` block (core.py lines 154-172): construct a
`cv2.VideoWriter` (recorded in `openSinks` only when it really opened),
write and upload the snapshot (one notification dispatch), set
`telegram_sent = True` and `recording = True`. -/
def startRecording (s : MonitorState) (f : Frame) : MonitorState :=
  let w : VideoWriter := { id := s.nextId, isOpened := f.sinkOk, frames := [] }
  { s with
      out := some w
      openSinks := if f.sinkOk then s.nextId :: s.openSinks else s.openSinks
      nextId := s.nextId + 1
      notifCount := s.notifCount + 1
      telegram_sent := true
      recording := true }

/-- The close block (core.py lines 189-195): release the sink if
present, then clear `self.out`, `recording`, `telegram_sent` and
`motion_timer`. -/
def stopRecording (s : MonitorState) : MonitorState :=
  match s.out with
  | some w =>
      { s with
          out := none
          recording := false
          telegram_sent := false
          motion_timer := none
          openSinks := if w.isOpened then s.openSinks.erase w.id else s.openSinks }
  | none =>
      { s with
          out := none
          recording := false
          telegram_sent := false
          motion_timer := none }

/-- The guard of the close block (core.py line 184-188):
`recording and motion_timer and (current_time - motion_timer > grace_period)`,
with Python truthiness on the optional float `motion_timer`
(`None` and `0.0` are falsy) and short-circuit evaluation. -/
def closeCond (cfg : Config) (s : MonitorState) (now : Int) : Bool :=
  s.recording &&
    match s.motion_timer with
    | none => false
    | some t => (t != 0) && decide (now - t > cfg.grace_period)

/-- One iteration of the frame loop of `motion_detector` (core.py
lines 153-196), after the motion boolean has been computed:
the `motion and in_window` branch starts a session when idle, writes
the frame to the sink when one is set, and refreshes `motion_timer`;
the `motion and not in_window` branch is `pass`; the remaining branch
closes the session when the grace period has expired. -/
def step (cfg : Config) (s : MonitorState) (f : Frame) : MonitorState :=
  let in_window := is_monitoring_hours cfg.monitoring_start_hour cfg.monitoring_end_hour f.hour
  if f.motion && in_window then
    let s1 := if !s.recording then startRecording s f else s
    let s2 :=
      match s1.out with
      | some w => { s1 with out := some (w.write f.idx) }
      | none => s1
    { s2 with motion_timer := some f.time }
  else if f.motion && !in_window then
    s
  else
    if closeCond cfg s f.time then stopRecording s else s

/-- Processing a whole sequence of frames from a given state. -/
def run (cfg : Config) (s : MonitorState) (fs : List Frame) : MonitorState :=
  fs.foldl (step cfg) s

/-- C7: the monitoring-window check is a pure function of the current
hour and the two bounds that handles wraparound: with start=22 and
end=6 it is true exactly on hours 22,23,0,1,2,3,4,5 and false on hours
6 through 21; with start=8 and end=18 it is true exactly on hours 8
through 17. -/
theorem monitoring_hours_examples :
    ((List.range 24).filter (fun h => is_monitoring_hours 22 6 h)) =
      [0, 1, 2, 3, 4, 5, 22, 23] ∧
    ((List.range 24).filter (fun h => is_monitoring_hours 8 18 h)) =
      [8, 9, 10, 11, 12, 13, 14, 15, 16, 17] := by
  decide

/-! Concrete fixtures used by counterexamples and witnesses. -/

/-- A configuration with window 8..18, a 10 second grace period and a
3 day retention window. -/
def cfg0 : Config :=
  { monitoring_start_hour := 8
    monitoring_end_hour := 18
    grace_period := 10
    cleanup_days := 3 }

/-- A motion frame inside the window at time 100. -/
def fMotionIn : Frame :=
  { motion := true, hour := 12, time := 100, sinkOk := true, idx := 0 }

/-- A motion frame outside the window at time 105. -/
def fMotionOut : Frame :=
  { motion := true, hour := 20, time := 105, sinkOk := true, idx := 1 }

/-- A no-motion frame inside the window at time 105 (within the grace
period of a timer set at 100). -/
def fNoMotion : Frame :=
  { motion := false, hour := 12, time := 105, sinkOk := true, idx := 1 }

/-- A motion frame inside the window whose video sink fails to open. -/
def fSinkFail : Frame :=
  { motion := true, hour := 12, time := 100, sinkOk := false, idx := 0 }

/-- Helper: while a session is open, a motion frame never dispatches a
notification and never closes the session; inside the window it
appends the frame and refreshes the timer, outside the window the
branch is a plain pass and the state is unchanged. -/
theorem step_motion_while_recording (cfg : Config) (s : MonitorState) (f : Frame)
    (hrec : s.recording = true) (hmot : f.motion = true) :
    (step cfg s f).recording = true ∧
    (step cfg s f).notifCount = s.notifCount ∧
    (is_monitoring_hours cfg.monitoring_start_hour cfg.monitoring_end_hour f.hour = false →
      step cfg s f = s) ∧
    (∀ w, s.out = some w →
      is_monitoring_hours cfg.monitoring_start_hour cfg.monitoring_end_hour f.hour = true →
      (step cfg s f).out = some (w.write f.idx) ∧
        (step cfg s f).motion_timer = some f.time) := by
  cases hw : is_monitoring_hours cfg.monitoring_start_hour cfg.monitoring_end_hour f.hour with
  | false =>
      have hs : step cfg s f = s := by
        simp [step, hmot, hw]
      refine ⟨by rw [hs]; exact hrec, by rw [hs], fun _ => hs, ?_⟩
      intro w _ hww
      simp [hw] at hww
  | true =>
      cases hout : s.out with
      | none =>
          refine ⟨?_, ?_, ?_, ?_⟩
          · simp [step, hmot, hw, hrec, hout]
          · simp [step, hmot, hw, hrec, hout]
          · intro hww; simp [hw] at hww
          · intro w hw2 _; cases hw2
      | some w =>
          refine ⟨?_, ?_, ?_, ?_⟩
          · simp [step, hmot, hw, hrec, hout]
          · simp [step, hmot, hw, hrec, hout]
          · intro hww; simp [hw] at hww
          · intro w2 hw2 _
            cases hw2
            constructor
            · simp [step, hmot, hw, hrec, hout]
            · simp [step, hmot, hw, hrec, hout]

/-- C1 counterexample: with the session open (after an in-window motion
frame at time 100), a motion frame outside the window at time 105 does
NOT append to the sink and does NOT set the timer to 105 — the branch
is a plain pass, so state is unchanged; the claim predicted
frames = [0, 1] and motion_timer = some 105. -/
theorem recording_motion_out_window_counterexample :
    (run cfg0 initState [fMotionIn]).recording = true ∧
    run cfg0 initState [fMotionIn, fMotionOut] = run cfg0 initState [fMotionIn] ∧
    (run cfg0 initState [fMotionIn, fMotionOut]).motion_timer = some 100 ∧
    ¬ (run cfg0 initState [fMotionIn, fMotionOut]).motion_timer = some 105 ∧
    (run cfg0 initState [fMotionIn, fMotionOut]).out =
      some { id := 0, isOpened := true, frames := [0] } := by
  decide

/-- C1 amended: while a session is open, a motion frame keeps the
session open (only the grace-period comparison ever closes it) and it
appends the frame to the sink and sets the timer to now only when
in_window is true; when in_window is false the frame leaves the whole
state unchanged. -/
theorem recording_motion_frame (cfg : Config) (s : MonitorState) (f : Frame)
    (w : VideoWriter) (hrec : s.recording = true) (hout : s.out = some w)
    (hmot : f.motion = true) :
    (step cfg s f).recording = true ∧
    (is_monitoring_hours cfg.monitoring_start_hour cfg.monitoring_end_hour f.hour = true →
      (step cfg s f).out = some (w.write f.idx) ∧
        (step cfg s f).motion_timer = some f.time) ∧
    (is_monitoring_hours cfg.monitoring_start_hour cfg.monitoring_end_hour f.hour = false →
      step cfg s f = s) := by
  obtain ⟨h1, _, h3, h4⟩ := step_motion_while_recording cfg s f hrec hmot
  exact ⟨h1, fun hw => h4 w hout hw, h3⟩

/-- Witness for the C1 amended theorem at a concrete open session. -/
theorem recording_motion_frame_witness :
    (step cfg0 (run cfg0 initState [fMotionIn]) fMotionOut).recording = true ∧
    (is_monitoring_hours cfg0.monitoring_start_hour cfg0.monitoring_end_hour
        fMotionOut.hour = false →
      step cfg0 (run cfg0 initState [fMotionIn]) fMotionOut =
        run cfg0 initState [fMotionIn]) :=
  ⟨(recording_motion_frame cfg0 (run cfg0 initState [fMotionIn]) fMotionOut
      { id := 0, isOpened := true, frames := [0] } (by decide) (by decide) (by decide)).1,
   (recording_motion_frame cfg0 (run cfg0 initState [fMotionIn]) fMotionOut
      { id := 0, isOpened := true, frames := [0] } (by decide) (by decide) (by decide)).2.2⟩

/-- Helper: a no-motion frame within the grace period leaves the state
unchanged, because the close guard evaluates to false. -/
theorem closeCond_false_of_within (cfg : Config) (s : MonitorState) (T now : Int)
    (ht : s.motion_timer = some T) (h : now - T ≤ cfg.grace_period) :
    closeCond cfg s now = false := by
  simp [closeCond, ht, decide_eq_false (not_lt.mpr h)]

/-- Helper: a no-motion frame that does not fire the close guard is a
no-op on the state. -/
theorem step_no_motion_no_close (cfg : Config) (s : MonitorState) (f : Frame)
    (hmot : f.motion = false) (hc : closeCond cfg s f.time = false) :
    step cfg s f = s := by
  simp [step, hmot, hc]

/-- C2 counterexample: with the session open (timer at 100) and a
no-motion frame at time 105 (within the 10 second grace period), the
code does NOT append the frame to the sink — the claim predicted
frames = [0, 1]; the state is entirely unchanged. -/
theorem gap_frame_not_appended_counterexample :
    (run cfg0 initState [fMotionIn]).recording = true ∧
    fNoMotion.time - 100 ≤ cfg0.grace_period ∧
    run cfg0 initState [fMotionIn, fNoMotion] = run cfg0 initState [fMotionIn] ∧
    (run cfg0 initState [fMotionIn, fNoMotion]).out =
      some { id := 0, isOpened := true, frames := [0] } ∧
    ¬ (run cfg0 initState [fMotionIn, fNoMotion]).out =
      some { id := 0, isOpened := true, frames := [0, 1] } := by
  decide

/-- C2 amended: while a session is open with last motion at T, a
no-motion frame at a time now with now - T within the grace period
keeps the session open and does not reset the timer, but it does not
append the frame to the sink either: the state is entirely
unchanged. -/
theorem gap_within_grace_state_unchanged (cfg : Config) (s : MonitorState)
    (f : Frame) (T : Int) (hrec : s.recording = true)
    (ht : s.motion_timer = some T) (hmot : f.motion = false)
    (hle : f.time - T ≤ cfg.grace_period) :
    step cfg s f = s :=
  step_no_motion_no_close cfg s f hmot (closeCond_false_of_within cfg s T f.time ht hle)

/-- Witness for the C2 amended theorem at a concrete open session. -/
theorem gap_within_grace_state_unchanged_witness :
    step cfg0 (run cfg0 initState [fMotionIn]) fNoMotion =
      run cfg0 initState [fMotionIn] :=
  gap_within_grace_state_unchanged cfg0 (run cfg0 initState [fMotionIn]) fNoMotion
    100 (by decide) (by decide) (by decide) (by decide)

/-- C3: behavior at the failing input. When the video sink fails to
open on the Idle to Recording transition (an unopened writer, since
`cv2.VideoWriter` does not raise), the code performs no check: it
still sets `recording = True`, still dispatches the notification, and
leaves an unopened writer in `self.out` (no sink actually open on
disk), contradicting the claim that the controller stays Idle with no
notification. -/
theorem sink_open_failure_behavior :
    (step cfg0 initState fSinkFail).recording = true ∧
    (step cfg0 initState fSinkFail).notifCount = 1 ∧
    (step cfg0 initState fSinkFail).openSinks = [] ∧
    (step cfg0 initState fSinkFail).out =
      some { id := 0, isOpened := false, frames := [] } := by
  decide

/-- Helper: the close guard is true when the session is open, the timer
holds a truthy value, and the grace period has been exceeded. -/
theorem closeCond_true_of_expired (cfg : Config) (s : MonitorState) (T now : Int)
    (hrec : s.recording = true) (ht : s.motion_timer = some T) (hT : T ≠ 0)
    (hgt : cfg.grace_period < now - T) :
    closeCond cfg s now = true := by
  simp [closeCond, hrec, ht, hT, hgt]

/-- C4: given an open session with last in-window motion at T (a real
timestamp, T positive) and grace period G at least zero, a no-motion
frame at now keeps the session open (state unchanged) whenever
now - T is at most G, in particular whenever the delta is negative
(clock stepped backward), and closes it (sink released, session
cleared) on the first no-motion frame with now - T exceeding G. -/
theorem grace_period_close (cfg : Config) (s : MonitorState) (f : Frame)
    (T : Int) (w : VideoWriter) (hrec : s.recording = true)
    (ht : s.motion_timer = some T) (hT : 0 < T) (hout : s.out = some w)
    (hG : 0 ≤ cfg.grace_period) (hmot : f.motion = false) :
    (f.time - T ≤ cfg.grace_period → step cfg s f = s) ∧
    (f.time - T < 0 → step cfg s f = s) ∧
    (cfg.grace_period < f.time - T →
      (step cfg s f).recording = false ∧
      (step cfg s f).out = none ∧
      (step cfg s f).motion_timer = none ∧
      (step cfg s f).openSinks =
        (if w.isOpened then s.openSinks.erase w.id else s.openSinks)) := by
  refine ⟨?_, ?_, ?_⟩
  · intro hle
    exact step_no_motion_no_close cfg s f hmot (closeCond_false_of_within cfg s T f.time ht hle)
  · intro hneg
    have hle : f.time - T ≤ cfg.grace_period := le_trans (le_of_lt hneg) hG
    exact step_no_motion_no_close cfg s f hmot (closeCond_false_of_within cfg s T f.time ht hle)
  · intro hgt
    have hc : closeCond cfg s f.time = true :=
      closeCond_true_of_expired cfg s T f.time hrec ht (by omega) hgt
    have hs : step cfg s f = stopRecording s := by
      simp [step, hmot, hc]
    rw [hs]
    simp [stopRecording, hout]

/-- Witness for C4 at a concrete open session: a no-motion frame at
time 105 (delta 5, within grace 10) is a no-op, and one at time 111
(delta 11, past grace 10) closes the session. -/
theorem grace_period_close_witness :
    step cfg0 (run cfg0 initState [fMotionIn]) fNoMotion =
      run cfg0 initState [fMotionIn] ∧
    (step cfg0 (run cfg0 initState [fMotionIn])
        { motion := false, hour := 12, time := 111, sinkOk := true, idx := 2 }).recording
      = false :=
  ⟨(grace_period_close cfg0 (run cfg0 initState [fMotionIn]) fNoMotion 100
      { id := 0, isOpened := true, frames := [0] } (by decide) (by decide) (by decide)
      (by decide) (by decide) (by decide)).1 (by decide),
   ((grace_period_close cfg0 (run cfg0 initState [fMotionIn])
      { motion := false, hour := 12, time := 111, sinkOk := true, idx := 2 } 100
      { id := 0, isOpened := true, frames := [0] } (by decide) (by decide) (by decide)
      (by decide) (by decide) (by decide)).2.2 (by decide)).1⟩

/-- The structural invariant tying the loop state to the open sinks on
disk: `recording` is set exactly when a writer object is held, and the
open-sink list is exactly the held writer when it really opened. -/
def SinkInv (s : MonitorState) : Prop :=
  s.recording = s.out.isSome ∧
  match s.out with
  | some w => s.openSinks = if w.isOpened then [w.id] else []
  | none => s.openSinks = []

theorem sinkInv_init : SinkInv initState := by
  constructor <;> simp [initState]

theorem sinkInv_step (cfg : Config) (s : MonitorState) (f : Frame)
    (h : SinkInv s) : SinkInv (step cfg s f) := by
  obtain ⟨h1, h2⟩ := h
  cases hm : f.motion with
  | false =>
      cases hc : closeCond cfg s f.time with
      | false =>
          have hs : step cfg s f = s := step_no_motion_no_close cfg s f hm hc
          rw [hs]; exact ⟨h1, h2⟩
      | true =>
          have hs : step cfg s f = stopRecording s := by
            simp [step, hm, hc]
          rw [hs]
          cases hout : s.out with
          | none =>
              rw [hout] at h2
              constructor <;> simp [stopRecording, hout, h2]
          | some w =>
              rw [hout] at h2
              constructor
              · simp [stopRecording, hout]
              · simp only [stopRecording, hout]
                cases hop : w.isOpened with
                | false => simpa [hop] using h2
                | true => simp [hop, h2, hop ▸ h2]
  | true =>
      cases hw : is_monitoring_hours cfg.monitoring_start_hour cfg.monitoring_end_hour f.hour with
      | false =>
          have hs : step cfg s f = s := by simp [step, hm, hw]
          rw [hs]; exact ⟨h1, h2⟩
      | true =>
          cases hr : s.recording with
          | false =>
              have hout : s.out = none := by
                rw [hr] at h1
                cases ho : s.out with
                | none => rfl
                | some w => rw [ho] at h1; simp at h1
              have hs : step cfg s f =
                  { startRecording s f with
                      out := some (VideoWriter.write
                        { id := s.nextId, isOpened := f.sinkOk, frames := [] } f.idx)
                      motion_timer := some f.time } := by
                simp [step, hm, hw, hr, startRecording]
              rw [hs]
              rw [hout] at h2
              have hempty : s.openSinks = [] := by simpa using h2
              refine ⟨?_, ?_⟩
              · simp [startRecording]
              · simp only [startRecording, VideoWriter.write]
                cases hok : f.sinkOk with
                | false => simp [hok, hempty]
                | true => simp [hok, hempty]
          | true =>
              cases hout : s.out with
              | none =>
                  have hs : step cfg s f = { s with motion_timer := some f.time } := by
                    simp [step, hm, hw, hr, hout]
                  rw [hout] at h2
                  rw [hs]
                  refine ⟨?_, ?_⟩
                  · simpa [hout] using h1
                  · simpa [hout] using h2
              | some w =>
                  have hs : step cfg s f =
                      { s with out := some (w.write f.idx),
                               motion_timer := some f.time } := by
                    simp [step, hm, hw, hr, hout]
                  rw [hs]
                  rw [hout] at h2
                  have h2s : s.openSinks = if w.isOpened then [w.id] else [] := by
                    simpa using h2
                  refine ⟨?_, ?_⟩
                  · simp [hr]
                  · cases hop : w.isOpened with
                    | false =>
                        simp only [VideoWriter.write, hop]
                        simpa [hop] using h2s
                    | true =>
                        simp only [VideoWriter.write, hop]
                        simpa [hop] using h2s

theorem sinkInv_run (cfg : Config) (fs : List Frame) (s : MonitorState)
    (h : SinkInv s) : SinkInv (run cfg s fs) := by
  induction fs generalizing s with
  | nil => exact h
  | cons f fs ih => exact ih (step cfg s f) (sinkInv_step cfg s f h)

/-- C5: over any sequence of input frames processed from the initial
state, at most one video sink is open at any point (the open-sink list
never holds more than one handle). -/
theorem at_most_one_open_sink (cfg : Config) (fs : List Frame) :
    (run cfg initState fs).openSinks.length ≤ 1 := by
  obtain ⟨-, h2⟩ := sinkInv_run cfg fs initState sinkInv_init
  revert h2
  cases (run cfg initState fs).out with
  | none => intro h2; simp [h2]
  | some w =>
      intro h2
      rw [h2]
      cases w.isOpened <;> simp

/-- Helper: processing any all-motion frame sequence from an open
session keeps the session open and dispatches no notification. -/
theorem run_motion_keeps_recording (cfg : Config) (fs : List Frame)
    (s : MonitorState) (hrec : s.recording = true)
    (hmot : ∀ f ∈ fs, f.motion = true) :
    (run cfg s fs).recording = true ∧ (run cfg s fs).notifCount = s.notifCount := by
  induction fs generalizing s with
  | nil => exact ⟨hrec, rfl⟩
  | cons f fs ih =>
      obtain ⟨h1, h2, -, -⟩ :=
        step_motion_while_recording cfg s f hrec (hmot f (List.mem_cons_self f fs))
      obtain ⟨k1, k2⟩ := ih (step cfg s f) h1 (fun g hg => hmot g (List.mem_cons_of_mem f hg))
      refine ⟨k1, ?_⟩
      show (run cfg (step cfg s f) fs).notifCount = s.notifCount
      rw [k2, h2]

/-- C6: if motion is continuously true and the first frame is inside
the monitoring window, exactly one notification is dispatched for the
session, at the start transition, regardless of session length. -/
theorem one_notification_per_session (cfg : Config) (f0 : Frame) (fs : List Frame)
    (hmot : ∀ f ∈ f0 :: fs, f.motion = true)
    (hwin : is_monitoring_hours cfg.monitoring_start_hour cfg.monitoring_end_hour
      f0.hour = true) :
    (run cfg initState [f0]).notifCount = 1 ∧
    (run cfg initState (f0 :: fs)).notifCount = 1 := by
  have hm0 : f0.motion = true := hmot f0 (List.mem_cons_self f0 fs)
  have hstart : (step cfg initState f0).recording = true ∧
      (step cfg initState f0).notifCount = 1 := by
    constructor <;>
      simp [step, hm0, hwin, initState, startRecording]
  refine ⟨hstart.2, ?_⟩
  have : run cfg initState (f0 :: fs) = run cfg (step cfg initState f0) fs := rfl
  rw [this]
  obtain ⟨-, k2⟩ := run_motion_keeps_recording cfg fs (step cfg initState f0)
    hstart.1 (fun g hg => hmot g (List.mem_cons_of_mem f0 hg))
  rw [k2, hstart.2]

/-- Witness for C6: three consecutive in-window motion frames yield
exactly one notification. -/
theorem one_notification_per_session_witness :
    (run cfg0 initState [fMotionIn]).notifCount = 1 ∧
    (run cfg0 initState [fMotionIn,
      { motion := true, hour := 12, time := 101, sinkOk := true, idx := 1 },
      { motion := true, hour := 12, time := 102, sinkOk := true, idx := 2 }]).notifCount = 1 :=
  one_notification_per_session cfg0 fMotionIn
    [{ motion := true, hour := 12, time := 101, sinkOk := true, idx := 1 },
     { motion := true, hour := 12, time := 102, sinkOk := true, idx := 2 }]
    (by decide) (by decide)

/-- A wall-clock instant as used by `clean_old_files_scheduler`: a day
number and the number of seconds since midnight of that day. -/
structure PyDateTime where
  day : Nat
  sod : Nat
  deriving Repr, DecidableEq

/-- The `now >= next_run` comparison of two datetimes (lexicographic on
day, then time of day). -/
def PyDateTime.ge (a b : PyDateTime) : Bool :=
  decide (b.day < a.day) || (decide (a.day = b.day) && decide (b.sod ≤ a.sod))

/-- `now.replace(hour=6, minute=0, second=0, microsecond=0)` from
core.py line 85: same day, time of day 06:00:00. -/
def replaceAtSix (now : PyDateTime) : PyDateTime :=
  { day := now.day, sod := 6 * 3600 }

/-- The next-run computation of `clean_old_files_scheduler` (core.py
lines 83-88): take 06:00 of the current day and roll forward one day
when `now >= next_run`. -/
def next_cleanup_run (now : PyDateTime) : PyDateTime :=
  let next_run := replaceAtSix now
  if now.ge next_run then { next_run with day := next_run.day + 1 } else next_run

/-- C8: the next-run computation uses a strict `now >= target`
comparison: invoked at or after 06:00 (21600 seconds into the day) it
rolls forward exactly one day, and invoked strictly before 06:00 it
schedules the run for the same day at 06:00. -/
theorem scheduler_next_run (now : PyDateTime) :
    (21600 ≤ now.sod → next_cleanup_run now = { day := now.day + 1, sod := 21600 }) ∧
    (now.sod < 21600 → next_cleanup_run now = { day := now.day, sod := 21600 }) := by
  constructor
  · intro h
    simp [next_cleanup_run, replaceAtSix, PyDateTime.ge, h]
  · intro h
    have h2 : ¬ (21600 ≤ now.sod) := by omega
    simp [next_cleanup_run, replaceAtSix, PyDateTime.ge, h2]

/-- Witness for C8: computed at 07:00 the next run is tomorrow 06:00;
computed at 05:00 it is today 06:00. -/
theorem scheduler_next_run_witness :
    next_cleanup_run { day := 7, sod := 25200 } = { day := 8, sod := 21600 } ∧
    next_cleanup_run { day := 7, sod := 18000 } = { day := 7, sod := 21600 } :=
  ⟨(scheduler_next_run { day := 7, sod := 25200 }).1 (by decide),
   (scheduler_next_run { day := 7, sod := 18000 }).2 (by decide)⟩

/-- A recording file on disk: a name and its creation timestamp
(`st_ctime`), in seconds. -/
structure RecFile where
  name : Nat
  ctime : Int
  deriving Repr, DecidableEq

/-- Stable insertion into a list sorted by ascending creation time
(model of the stable `list.sort(key=lambda x: x.stat().st_ctime)`). -/
def insertByCtime (f : RecFile) : List RecFile → List RecFile
  | [] => [f]
  | g :: gs => if f.ctime ≤ g.ctime then f :: g :: gs else g :: insertByCtime f gs

/-- Stable sort of the recording files by ascending creation time. -/
def sortByCtime : List RecFile → List RecFile
  | [] => []
  | f :: fs => insertByCtime f (sortByCtime fs)

/-- `SecurityMonitor.clean_old_files` (core.py lines 60-78): sort the
recording files by creation time, compute
`threshold_time = current_time - days_to_keep * 24 * 60 * 60`, and
unlink every file with `st_ctime < threshold_time`; the function
returns the list of deleted files (the others are untouched). -/
def clean_old_files (files : List RecFile) (current_time : Int)
    (days_to_keep : Int) : List RecFile :=
  let recording_files := sortByCtime files
  let threshold_time := current_time - days_to_keep * 24 * 60 * 60
  recording_files.filter (fun f => decide (f.ctime < threshold_time))

theorem mem_insertByCtime (f g : RecFile) (l : List RecFile) :
    g ∈ insertByCtime f l ↔ g = f ∨ g ∈ l := by
  induction l with
  | nil => simp [insertByCtime]
  | cons a l ih =>
      by_cases hle : f.ctime ≤ a.ctime
      · simp [insertByCtime, hle]
      · simp [insertByCtime, hle, ih]
        tauto

theorem mem_sortByCtime (g : RecFile) (l : List RecFile) :
    g ∈ sortByCtime l ↔ g ∈ l := by
  induction l with
  | nil => simp [sortByCtime]
  | cons a l ih => simp [sortByCtime, mem_insertByCtime, ih]

/-- The four-file retention example: files created 1, 2, 4 and 5 days
before time 1000000. -/
def exFiles : List RecFile :=
  [{ name := 0, ctime := 913600 },
   { name := 1, ctime := 827200 },
   { name := 2, ctime := 654400 },
   { name := 3, ctime := 568000 }]

/-- C9: the cleanup deletes exactly the files strictly older than
now - cleanup_days * 86400 and leaves every other file untouched; on
files aged 1, 2, 4 and 5 days with cleanup_days = 3, exactly the two
files aged 4 and 5 days are deleted. -/
theorem cleanup_deletes_exactly_old :
    (∀ (files : List RecFile) (now days : Int) (f : RecFile),
      f ∈ clean_old_files files now days ↔
        (f ∈ files ∧ f.ctime < now - days * 86400)) ∧
    clean_old_files exFiles 1000000 3 =
      [{ name := 3, ctime := 568000 }, { name := 2, ctime := 654400 }] := by
  constructor
  · intro files now days f
    constructor
    · intro hf
      obtain ⟨h1, h2⟩ := List.mem_filter.mp hf
      refine ⟨(mem_sortByCtime f files).mp h1, ?_⟩
      have := of_decide_eq_true h2
      omega
    · intro ⟨h1, h2⟩
      refine List.mem_filter.mpr ⟨(mem_sortByCtime f files).mpr h1, ?_⟩
      exact decide_eq_true (by omega)
  · decide

/-- Helper: with equal start and end hours the window test is false at
every hour. -/
theorem monitoring_hours_equal_bounds (a h : Nat) :
    is_monitoring_hours a a h = false := by
  simp [is_monitoring_hours]

/-- Helper: when the window test is false at every hour and no session
is open, a step is a no-op on the initial state. -/
theorem step_initState_no_window (cfg : Config) (f : Frame)
    (hwf : ∀ hr, is_monitoring_hours cfg.monitoring_start_hour
      cfg.monitoring_end_hour hr = false) :
    step cfg initState f = initState := by
  cases hm : f.motion with
  | true => simp [step, hm, hwf f.hour]
  | false =>
      have hc : closeCond cfg initState f.time = false := by
        simp [closeCond, initState]
      exact step_no_motion_no_close cfg initState f hm hc

/-- C10: with start_hour equal to end_hour the monitoring-hours check
is false for every hour (the window is empty, not full-day), and
consequently no frame sequence ever starts a recording session, opens
a sink, or dispatches a notification. -/
theorem empty_window_never_records (cfg : Config) (fs : List Frame)
    (h : cfg.monitoring_start_hour = cfg.monitoring_end_hour) :
    (∀ hr, is_monitoring_hours cfg.monitoring_start_hour
      cfg.monitoring_end_hour hr = false) ∧
    (run cfg initState fs).recording = false ∧
    (run cfg initState fs).notifCount = 0 ∧
    (run cfg initState fs).openSinks = [] := by
  have hwf : ∀ hr, is_monitoring_hours cfg.monitoring_start_hour
      cfg.monitoring_end_hour hr = false := by
    intro hr
    rw [h]
    exact monitoring_hours_equal_bounds cfg.monitoring_end_hour hr
  have hrun : run cfg initState fs = initState := by
    induction fs with
    | nil => rfl
    | cons f fs ih =>
        show run cfg (step cfg initState f) fs = initState
        rw [step_initState_no_window cfg f hwf]
        exact ih
  exact ⟨hwf, by rw [hrun]; rfl, by rw [hrun]; rfl, by rw [hrun]; rfl⟩

/-- Witness for C10: a window with both bounds 8 and a motion frame at
hour 8 produce no recording and no notification. -/
theorem empty_window_never_records_witness :
    (run { monitoring_start_hour := 8, monitoring_end_hour := 8,
           grace_period := 10, cleanup_days := 3 } initState
        [{ motion := true, hour := 8, time := 100, sinkOk := true, idx := 0 }]).recording
      = false ∧
    (run { monitoring_start_hour := 8, monitoring_end_hour := 8,
           grace_period := 10, cleanup_days := 3 } initState
        [{ motion := true, hour := 8, time := 100, sinkOk := true, idx := 0 }]).notifCount
      = 0 :=
  ⟨(empty_window_never_records
      { monitoring_start_hour := 8, monitoring_end_hour := 8,
        grace_period := 10, cleanup_days := 3 }
      [{ motion := true, hour := 8, time := 100, sinkOk := true, idx := 0 }]
      (by decide)).2.1,
   (empty_window_never_records
      { monitoring_start_hour := 8, monitoring_end_hour := 8,
        grace_period := 10, cleanup_days := 3 }
      [{ motion := true, hour := 8, time := 100, sinkOk := true, idx := 0 }]
      (by decide)).2.2.1⟩
